import Mathlib

/-!
Verification of the theme-preference and contact-submission logic of a
single-page portfolio site.

The development shallowly embeds two React components:

* `Contact.tsx` — a contact form holding a three-field record (`formData`)
  and a four-state submission status.  Its `handleSubmit` posts the fields
  to a relay endpoint, parses the JSON response, and branches on the JS
  truthiness of `data.success`; all thrown errors are caught and collapsed
  to the `error` status.
* `ThemeProvider.tsx` — a theme context holding `theme` (declared
  `'light' | 'dark'`, but at runtime any string can leak in through the
  unchecked `as Theme | null` cast) and `mounted`.  A mount effect reads
  the persisted `"theme"` slot (falling back to the platform preference),
  and a second effect, dependent on `theme` and `mounted`, rewrites the
  document-root marker classes and persists the theme on every change.

JavaScript semantics that matter here — truthiness of property lookups,
property access on `null` throwing `TypeError`, browser submit buttons not
firing while `disabled` — are embedded explicitly and commented at the
point of use.
-/

/-! ## JSON values and JavaScript truthiness -/

/-- Parsed JSON values, as returned by `response.json()`. -/
inductive Json where
  | null : Json
  | bool (b : Bool) : Json
  | num (n : Int) : Json
  | str (s : String) : Json
  | arr (elems : List Json) : Json
  | obj (members : List (String × Json)) : Json
deriving Repr

/-- JS property access `j.key` on a non-`null` value: defined members of an
object, `undefined` (here `none`) everywhere else.  Access on `null` throws
and is treated separately at its call site. -/
def jsonGet (j : Json) (key : String) : Option Json :=
  match j with
  | Json.obj members => (members.find? (fun m => m.1 == key)).map (fun m => m.2)
  | _ => none

/-- JS truthiness of a possibly-`undefined` JSON value: `undefined`, `null`,
`false`, `0` and `""` are falsy; everything else is truthy. -/
def truthy : Option Json → Bool
  | none => false
  | some Json.null => false
  | some (Json.bool b) => b
  | some (Json.num n) => n != 0
  | some (Json.str s) => s != ""
  | some (Json.arr _) => true
  | some (Json.obj _) => true

/-! ## ContactSubmission (Contact.tsx) -/

/-- The controlled-input record of the contact form (`FormData` in
`Contact.tsx`). -/
structure FormData where
  name : String
  email : String
  message : String
deriving Repr, DecidableEq

/-- The submission status enum. -/
inductive Status where
  | idle : Status
  | submitting : Status
  | success : Status
  | error : Status
deriving Repr, DecidableEq

/-- The component state: the field record plus the status. -/
structure ContactState where
  formData : FormData
  status : Status
deriving Repr, DecidableEq

/-- The empty field record used both as the initial value and as the reset
value on success. -/
def emptyFormData : FormData :=
  { name := "", email := "", message := "" }

/-- Initial component state: empty fields, `idle` status. -/
def initialContactState : ContactState :=
  { formData := emptyFormData, status := Status.idle }

/-- The three form fields, matching the `name` attributes of the inputs. -/
inductive FieldName where
  | name : FieldName
  | email : FieldName
  | message : FieldName
deriving Repr, DecidableEq

/-- Projection of one field out of the record. -/
def fieldGet (fd : FormData) : FieldName → String
  | FieldName.name => fd.name
  | FieldName.email => fd.email
  | FieldName.message => fd.message

/-- `setFormData ... [e.target.name]: e.target.value` — replace the named
field, spread the rest. -/
def updateField (fd : FormData) (f : FieldName) (v : String) : FormData :=
  match f with
  | FieldName.name => { fd with name := v }
  | FieldName.email => { fd with email := v }
  | FieldName.message => { fd with message := v }

/-- `handleChange`: updates `formData` only; `status` is not touched. -/
def handleChange (s : ContactState) (f : FieldName) (v : String) : ContactState :=
  { s with formData := updateField s.formData f v }

/-- A sequence of `handleChange` calls applied in order. -/
def applyUpdates (s : ContactState) (us : List (FieldName × String)) : ContactState :=
  us.foldl (fun s u => handleChange s u.1 u.2) s

/-- The JSON body of the outbound POST to the relay endpoint, as built in
`handleSubmit` from the current field values. -/
structure Request where
  access_key : String
  name : String
  email : String
  message : String
  subject : String
  from_name : String
  botcheck : Bool
deriving Repr, DecidableEq

/-- Build the request body from the pre-submit field record. -/
def buildRequest (fd : FormData) : Request :=
  { access_key := "5fe16617-2e0a-4a55-8ec4-d6bcb699c086"
    name := fd.name
    email := fd.email
    message := fd.message
    subject := "kelvinma.com Inquiry from " ++ fd.name
    from_name := fd.name
    botcheck := false }

/-- How the awaited `fetch` + `response.json()` pair resolves, seen from the
component: a parsed JSON body, a body that fails to parse (the `json()`
promise rejects), or a transport failure (the `fetch` promise rejects). -/
inductive RelayOutcome where
  | parsed (body : Json) : RelayOutcome
  | jsonError : RelayOutcome
  | networkError : RelayOutcome
deriving Repr

/-- The kinds of exception the `try` block can raise. -/
inductive JsError where
  | fetchError : JsError
  | parseError : JsError
  | typeError : JsError
deriving Repr, DecidableEq

/-- Whether a JSON value is the literal `null`. -/
def Json.isNull : Json → Bool
  | Json.null => true
  | _ => false

/-- The body of the `try` block in `handleSubmit`, after `status` has been
set to `submitting`: await the response, parse it, and branch on the JS
truthiness of `data.success`.  Property access on a `null` body throws a
`TypeError` (caught by the surrounding `catch`). -/
def submitAttempt (s1 : ContactState) (outcome : RelayOutcome) :
    Except JsError ContactState :=
  match outcome with
  | RelayOutcome.networkError => Except.error JsError.fetchError
  | RelayOutcome.jsonError => Except.error JsError.parseError
  | RelayOutcome.parsed body =>
      if body.isNull then Except.error JsError.typeError
      else if truthy (jsonGet body "success") then
        Except.ok { s1 with status := Status.success, formData := emptyFormData }
      else
        Except.ok { s1 with status := Status.error }

/-- `handleSubmit`: set `status := submitting`, issue exactly one outbound
request built from the pre-submit fields, then run the `try` block; any
thrown error is caught and collapsed to `status := error` with the fields
untouched.  The returned list records the outbound requests issued by this
call (the fetch is attempted on every path, including the one that ends in
a network error).  There is no guard on the current status: the function
body runs regardless of the state it is called in. -/
def handleSubmit (s : ContactState) (outcome : RelayOutcome) :
    ContactState × List Request :=
  let s1 : ContactState := { s with status := Status.submitting }
  let req := buildRequest s.formData
  match submitAttempt s1 outcome with
  | Except.ok s2 => (s2, [req])
  | Except.error _ => ({ s1 with status := Status.error }, [req])

/-- `disabled=(status === submitting)` on the submit button. -/
def submitButtonDisabled (s : ContactState) : Bool :=
  s.status == Status.submitting

/-- A submit attempt through the UI: a disabled submit button does not fire
the form's `onSubmit` handler (browser semantics), so while the button is
disabled the attempt has no effect and issues no request; otherwise it runs
`handleSubmit`. -/
def uiSubmit (s : ContactState) (outcome : RelayOutcome) :
    ContactState × List Request :=
  if submitButtonDisabled s then (s, [])
  else handleSubmit s outcome

/-- The relay response indicates failure in the sense of the interface
contract: the `success` member is the boolean `false`, or is absent. -/
def relayIndicatesFailure (body : Json) : Prop :=
  jsonGet body "success" = some (Json.bool false) ∨ jsonGet body "success" = none

/-- A failing outcome of a submit call: a relay response indicating failure,
a non-JSON response, or a thrown transport error. -/
def failingOutcome : RelayOutcome → Prop
  | RelayOutcome.parsed body => relayIndicatesFailure body
  | RelayOutcome.jsonError => True
  | RelayOutcome.networkError => True

/-! ## ThemePreference (ThemeProvider.tsx) -/

/-- The ambient browser environment the provider interacts with: the
`localStorage` slot for the key `"theme"`, the `prefers-color-scheme: dark`
media query, and the class list of the document root. -/
structure ThemeEnv where
  storage : Option String
  platformPrefersDark : Bool
  rootClasses : List String
deriving Repr, DecidableEq

/-- The provider's React state.  `theme` is declared `'light' | 'dark'` in
the source, but the unchecked `as Theme | null` cast on the value read back
from storage means any string can inhabit it at runtime, so it is embedded
as `String`. -/
structure ThemeState where
  theme : String
  mounted : Bool
deriving Repr, DecidableEq

/-- First-render state: `useState('light')`, `useState(false)`. -/
def initialThemeState : ThemeState :=
  { theme := "light", mounted := false }

/-- `if (savedTheme)`: a string read from storage is truthy exactly when it
is present and non-empty. -/
def savedTruthy : Option String → Bool
  | none => false
  | some s => s != ""

/-- The mount effect (empty dependency array): set `mounted`, read the
persisted slot, and either adopt the saved string verbatim or fall back to
the platform preference. -/
def mountEffect (s : ThemeState) (env : ThemeEnv) : ThemeState :=
  { s with
    mounted := true
    theme :=
      if savedTruthy env.storage then env.storage.getD ""
      else if env.platformPrefersDark then "dark" else "light" }

/-- `classList.add`: append the class unless it is already present. -/
def addClass (classes : List String) (c : String) : List String :=
  if classes.contains c then classes else classes ++ [c]

/-- Whether a class is one of the two theme marker classes. -/
def markerPred (c : String) : Bool :=
  c == "light" || c == "dark"

/-- `classList.remove('light', 'dark')`. -/
def removeThemeClasses (classes : List String) : List String :=
  classes.filter (fun c => !markerPred c)

/-- The theme marker classes currently on the root. -/
def markers (classes : List String) : List String :=
  classes.filter markerPred

/-- One entry of the storage access log. -/
inductive StorageOp where
  | read (key : String) (value : Option String) : StorageOp
  | write (key : String) (value : String) : StorageOp
deriving Repr, DecidableEq

/-- The persist effect (dependencies `theme` and `mounted`): when mounted,
remove both marker classes from the root, add the current theme as a class,
and write the theme to the persisted slot; before mount it returns early and
does nothing.  Also returns the storage operations it performed. -/
def persistEffect (s : ThemeState) (env : ThemeEnv) : ThemeEnv × List StorageOp :=
  if s.mounted then
    ({ env with
        rootClasses := addClass (removeThemeClasses env.rootClasses) s.theme
        storage := some s.theme },
      [StorageOp.write "theme" s.theme])
  else (env, [])

/-- The full initialization sequence after the first render, following React
effect semantics: both effects run once against the first-render state (the
persist effect returns early because `mounted` is still false), the state
updates from the mount effect flush, and the persist effect re-runs because
its dependencies changed (`mounted` always flips to true).  Returns the new
state, the new environment, and the log of storage operations. -/
def initTheme (env : ThemeEnv) : ThemeState × ThemeEnv × List StorageOp :=
  let s0 := initialThemeState
  let readLog := [StorageOp.read "theme" env.storage]
  let s1 := mountEffect s0 env
  let p0 := persistEffect s0 env
  let p1 := persistEffect s1 p0.1
  (s1, p1.1, readLog ++ p0.2 ++ p1.2)

/-- `toggleTheme`: flip between the two values (any other string flips to
`"light"`). -/
def toggleTheme (t : String) : String :=
  if t = "light" then "dark" else "light"

/-- A toggle call followed by the re-render it causes: the theme flips and
the persist effect re-runs (its `theme` dependency changed). -/
def toggle (s : ThemeState) (env : ThemeEnv) : ThemeState × ThemeEnv × List StorageOp :=
  let s1 := { s with theme := toggleTheme s.theme }
  let p := persistEffect s1 env
  (s1, p.1, p.2)

/-- `n` successive toggle calls (dropping the logs). -/
def runToggles : ThemeState × ThemeEnv → Nat → ThemeState × ThemeEnv
  | p, 0 => p
  | p, Nat.succ n => runToggles ((toggle p.1 p.2).1, (toggle p.1 p.2).2.1) n

/-- Contents the persisted slot can have in normal operation: absent, or one
of the two values this program itself writes. -/
def wfStorage (o : Option String) : Prop :=
  o = none ∨ o = some "light" ∨ o = some "dark"

/-- A state the provider can be in once initialization has completed and the
persisted slot held a well-formed value: mounted, with the theme one of the
two declared values. -/
def Initialized (s : ThemeState) : Prop :=
  s.mounted = true ∧ (s.theme = "light" ∨ s.theme = "dark")

/-- The browser environment at page load: the document root rendered by
`layout.tsx` carries no class at all, and the slot and media query are
arbitrary. -/
def initialDocEnv (storage : Option String) (pd : Bool) : ThemeEnv :=
  { storage := storage, platformPrefersDark := pd, rootClasses := [] }

/-! ## Supporting lemmas -/

/-- A JSON value with a defined member is not the `null` literal. -/
theorem jsonGet_some_not_null {body : Json} {k : String} {v : Json}
    (h : jsonGet body k = some v) : body.isNull = false := by
  cases body <;> simp_all [jsonGet, Json.isNull]

/-- A JSON value recognised as `null` is the `null` literal. -/
theorem Json.eq_null_of_isNull {body : Json} (h : body.isNull = true) :
    body = Json.null := by
  cases body <;> simp_all [Json.isNull]

/-! ## Claims about ContactSubmission -/

/-- Claim C1: for every fields record reachable by any sequence of
`updateField` calls, a submit whose relay response is parsed JSON with a
`success` member equal to the boolean `true` sets the status to `success`
and resets the fields to the empty record. -/
theorem contact_submit_success_resets (us : List (FieldName × String)) (body : Json)
    (h : jsonGet body "success" = some (Json.bool true)) :
    (handleSubmit (applyUpdates initialContactState us) (RelayOutcome.parsed body)).1 =
      { formData := emptyFormData, status := Status.success } := by
  simp [handleSubmit, submitAttempt, jsonGet_some_not_null h, h, truthy]

/-- Witness for C1: a concrete update sequence and a concrete successful
response. -/
theorem contact_submit_success_resets_witness :
    jsonGet (Json.obj [("success", Json.bool true)]) "success" = some (Json.bool true) ∧
    (handleSubmit (applyUpdates initialContactState [(FieldName.name, "Ada")])
        (RelayOutcome.parsed (Json.obj [("success", Json.bool true)]))).1 =
      { formData := emptyFormData, status := Status.success } :=
  ⟨rfl, contact_submit_success_resets [(FieldName.name, "Ada")] _ rfl⟩

/-- Claim C2: for every fields record reachable by `updateField` calls and
every failing outcome of a submit — a relay response indicating failure
(`success` false or absent), a non-JSON response, or a thrown transport
error — the status becomes `error` and the fields are left equal to their
pre-submit values.  `handleSubmit` is a total function whose `catch` branch
absorbs every raised `JsError`, so no exception propagates to its caller. -/
theorem contact_submit_failure_keeps_fields (us : List (FieldName × String))
    (o : RelayOutcome) (h : failingOutcome o) :
    (handleSubmit (applyUpdates initialContactState us) o).1 =
      { formData := (applyUpdates initialContactState us).formData
        status := Status.error } := by
  cases o with
  | parsed body =>
      have h' : relayIndicatesFailure body := h
      rcases h' with h' | h'
      · simp [handleSubmit, submitAttempt, jsonGet_some_not_null h', h', truthy]
      · cases hb : body.isNull with
        | true => simp [handleSubmit, submitAttempt, hb]
        | false => simp [handleSubmit, submitAttempt, hb, h', truthy]
  | jsonError => simp [handleSubmit, submitAttempt]
  | networkError => simp [handleSubmit, submitAttempt]

/-- Witness for C2: a concrete update sequence with a thrown network error
leaves the typed fields in place and sets the status to `error`. -/
theorem contact_submit_failure_keeps_fields_witness :
    (handleSubmit (applyUpdates initialContactState [(FieldName.email, "a@b.c")])
        RelayOutcome.networkError).1 =
      { formData := (applyUpdates initialContactState [(FieldName.email, "a@b.c")]).formData
        status := Status.error } :=
  contact_submit_failure_keeps_fields [(FieldName.email, "a@b.c")]
    RelayOutcome.networkError trivial

/-- Counterexample to claim C3 as stated: `handleSubmit` itself has no guard
on the current status, so a direct call made while the status is already
`submitting` is not a no-op — it issues another outbound request and, here,
moves the state to `success` with the fields reset. -/
theorem contact_resubmit_not_ignored :
    (handleSubmit { formData := { name := "x", email := "y", message := "z" }
                    status := Status.submitting }
        (RelayOutcome.parsed (Json.obj [("success", Json.bool true)]))).2 ≠ [] ∧
    (handleSubmit { formData := { name := "x", email := "y", message := "z" }
                    status := Status.submitting }
        (RelayOutcome.parsed (Json.obj [("success", Json.bool true)]))).1 ≠
      { formData := { name := "x", email := "y", message := "z" }
        status := Status.submitting } := by
  constructor <;> decide

/-- Claim C3 (amended): only the UI path is guarded — the submit button is
disabled while the status is `submitting`, so a submit attempt through the
UI in that state changes no state and issues no outbound request; a direct
programmatic call to the handler is not guarded. -/
theorem contact_ui_submit_guarded (s : ContactState) (o : RelayOutcome)
    (h : s.status = Status.submitting) :
    uiSubmit s o = (s, []) := by
  simp [uiSubmit, submitButtonDisabled, h]

/-- Witness for amended C3: a concrete in-flight state and outcome. -/
theorem contact_ui_submit_guarded_witness :
    uiSubmit { formData := emptyFormData, status := Status.submitting }
        RelayOutcome.networkError =
      ({ formData := emptyFormData, status := Status.submitting }, []) :=
  contact_ui_submit_guarded
    { formData := emptyFormData, status := Status.submitting }
    RelayOutcome.networkError rfl

/-- Counterexample to claim C4 as stated: the code branches on JS truthiness
of `data.success`, not on it being the boolean `true`; a body whose
`success` member is the non-boolean truthy string `"no"` is treated as a
success, where the claim demands status `error`. -/
theorem contact_truthy_success_counterexample :
    jsonGet (Json.obj [("success", Json.str "no")]) "success" ≠ some (Json.bool true) ∧
    (handleSubmit initialContactState
        (RelayOutcome.parsed (Json.obj [("success", Json.str "no")]))).1.status =
      Status.success := by
  refine ⟨?_, rfl⟩
  intro h
  simp [jsonGet] at h

/-- Claim C4 (amended): a submit with a parsed JSON body yields status
`success` exactly when the body's `success` member is truthy in the
JavaScript sense, and status `error` otherwise; for a boolean `success`
member this coincides with the claim (`true` succeeds, `false` or an absent
member fails), but any truthy non-boolean also succeeds. -/
theorem contact_success_iff_truthy (s : ContactState) (body : Json) :
    (handleSubmit s (RelayOutcome.parsed body)).1.status =
      (if truthy (jsonGet body "success") then Status.success else Status.error) := by
  cases hb : body.isNull with
  | true =>
      have hnull := Json.eq_null_of_isNull hb
      subst hnull
      simp [handleSubmit, submitAttempt, Json.isNull, jsonGet, truthy]
  | false =>
      cases ht : truthy (jsonGet body "success") <;>
        simp [handleSubmit, submitAttempt, hb, ht]

/-! ## Supporting lemmas about the root marker classes -/

/-- `markers` distributes over appending class lists. -/
theorem markers_append (l r : List String) :
    markers (l ++ r) = markers l ++ markers r := by
  simp [markers, List.filter_append]

/-- A singleton marker class is its own marker list. -/
theorem markers_singleton {t : String} (ht : markerPred t = true) :
    markers [t] = [t] := by
  simp [markers, ht]

/-- Removing both marker classes leaves no marker on the root. -/
theorem markers_removeThemeClasses (l : List String) :
    markers (removeThemeClasses l) = [] := by
  simp [markers, removeThemeClasses, List.filter_filter]

/-- After both marker classes are removed, neither marker class is present. -/
theorem not_mem_removeThemeClasses (l : List String) {t : String}
    (ht : markerPred t = true) : t ∉ removeThemeClasses l := by
  intro hmem
  have h2 : t ∈ l ∧ markerPred t = false := by
    simpa [removeThemeClasses] using hmem
  simp [ht] at h2

/-- The effect of one persist pass on the root: whatever classes were there
before, the marker classes afterwards are exactly the theme written. -/
theorem markers_persist (l : List String) {t : String} (ht : markerPred t = true) :
    markers (addClass (removeThemeClasses l) t) = [t] := by
  have hmem := not_mem_removeThemeClasses l ht
  simp [addClass, hmem, markers_append, markers_removeThemeClasses, markers_singleton ht]

/-- Initialization from a well-formed persisted slot yields a mounted state
whose theme is one of the two declared values. -/
theorem initTheme_initialized (env : ThemeEnv) (hwf : wfStorage env.storage) :
    Initialized (initTheme env).1 := by
  constructor
  · rfl
  · rcases hwf with h | h | h <;> simp [initTheme, mountEffect, savedTruthy, h]

/-- The state/environment invariant preserved by every toggle: the provider
is initialized and the root carries exactly the current theme as marker. -/
theorem runToggles_inv (n : Nat) (p : ThemeState × ThemeEnv)
    (h : Initialized p.1 ∧ markers p.2.rootClasses = [p.1.theme]) :
    Initialized (runToggles p n).1 ∧
      markers (runToggles p n).2.rootClasses = [(runToggles p n).1.theme] := by
  induction n generalizing p with
  | zero => exact h
  | succ n ih =>
      obtain ⟨⟨hm, hv⟩, _⟩ := h
      have hmk : markerPred (toggleTheme p.1.theme) = true := by
        rcases hv with hv | hv <;> simp [toggleTheme, markerPred, hv]
      simp only [runToggles]
      apply ih
      refine ⟨⟨by simpa [toggle] using hm, ?_⟩, ?_⟩
      · rcases hv with hv | hv <;> simp [toggle, toggleTheme, hv]
      · simp [toggle, persistEffect, hm]
        simpa [toggle] using markers_persist p.2.rootClasses hmk

/-! ## Claims about ThemePreference -/

/-- Counterexample to claim C5 as stated: a persisted value that is present
but empty is falsy in JS, so the mount effect does not adopt it; with the
platform preferring dark the resulting mode is `"dark"`, not the persisted
value `""`. -/
theorem theme_init_empty_string_counterexample :
    (initialDocEnv (some "") true).storage = some "" ∧
    (initTheme (initialDocEnv (some "") true)).1.theme = "dark" ∧
    ("dark" : String) ≠ "" := by
  exact ⟨rfl, rfl, by decide⟩

/-- Claim C5 (amended): initialization sets the mode by precedence — a
present and non-empty persisted value is adopted verbatim regardless of the
platform preference; an absent or empty persisted value falls back to the
platform preference, giving dark exactly when the platform prefers dark and
light otherwise. -/
theorem theme_init_mode_precedence (env : ThemeEnv) :
    (initTheme env).1.theme =
      (match env.storage with
       | some v =>
           if v = "" then (if env.platformPrefersDark then "dark" else "light") else v
       | none => if env.platformPrefersDark then "dark" else "light") := by
  rcases env with ⟨st, pd, rc⟩
  cases st with
  | none => simp [initTheme, mountEffect, savedTruthy]
  | some v =>
      by_cases hv : v = "" <;> simp [initTheme, mountEffect, savedTruthy, hv]

/-- Counterexample to claim C6 as stated: after initialization with no
persisted value and a dark platform preference, the persist effect has
already written `"dark"` to the slot (the write happens at initialization,
before any toggle), and the write caused by the first toggle is `"light"`,
not `"dark"`. -/
theorem theme_persist_written_at_init_counterexample :
    (initTheme (initialDocEnv none true)).2.2 =
      [StorageOp.read "theme" none, StorageOp.write "theme" "dark"] ∧
    (initTheme (initialDocEnv none true)).2.1.storage = some "dark" ∧
    (toggle (initTheme (initialDocEnv none true)).1
        (initTheme (initialDocEnv none true)).2.1).2.2 =
      [StorageOp.write "theme" "light"] := by
  exact ⟨rfl, rfl, rfl⟩

/-- Claim C6 (amended): the persisted slot is read exactly once, at
initialization, and is written once at initialization (with the resulting
mode) and once on every toggle (with the new mode); after each of these the
slot equals the in-memory mode.  In particular, with no persisted value and
a dark platform preference the slot already holds `"dark"` before the first
toggle, and the first toggle writes `"light"`. -/
theorem theme_storage_access (env : ThemeEnv) (s : ThemeState) (e : ThemeEnv)
    (h : s.mounted = true) :
    (initTheme env).2.2 =
      [StorageOp.read "theme" env.storage,
       StorageOp.write "theme" (initTheme env).1.theme] ∧
    (initTheme env).2.1.storage = some (initTheme env).1.theme ∧
    (toggle s e).2.2 = [StorageOp.write "theme" (toggle s e).1.theme] ∧
    (toggle s e).2.1.storage = some (toggle s e).1.theme := by
  refine ⟨?_, ?_, ?_, ?_⟩ <;>
    simp [initTheme, toggle, persistEffect, mountEffect, initialThemeState, h]

/-- Witness for amended C6: a session starting from a persisted `"light"`
value, toggled once from a mounted dark state. -/
theorem theme_storage_access_witness :
    (initTheme (initialDocEnv (some "light") false)).2.2 =
      [StorageOp.read "theme" (initialDocEnv (some "light") false).storage,
       StorageOp.write "theme" (initTheme (initialDocEnv (some "light") false)).1.theme] ∧
    (initTheme (initialDocEnv (some "light") false)).2.1.storage =
      some (initTheme (initialDocEnv (some "light") false)).1.theme ∧
    (toggle { theme := "dark", mounted := true } (initialDocEnv none false)).2.2 =
      [StorageOp.write "theme"
        (toggle { theme := "dark", mounted := true } (initialDocEnv none false)).1.theme] ∧
    (toggle { theme := "dark", mounted := true } (initialDocEnv none false)).2.1.storage =
      some (toggle { theme := "dark", mounted := true } (initialDocEnv none false)).1.theme :=
  theme_storage_access (initialDocEnv (some "light") false)
    { theme := "dark", mounted := true } (initialDocEnv none false) rfl

/-- Claim C7: from every initialized state, toggling twice returns the mode
to its original value, and after each of the two toggles the persisted slot
equals the in-memory mode. -/
theorem theme_toggle_double_and_persist (s : ThemeState) (env : ThemeEnv)
    (h : Initialized s) :
    (toggle (toggle s env).1 (toggle s env).2.1).1.theme = s.theme ∧
    (toggle s env).2.1.storage = some (toggle s env).1.theme ∧
    (toggle (toggle s env).1 (toggle s env).2.1).2.1.storage =
      some (toggle (toggle s env).1 (toggle s env).2.1).1.theme := by
  obtain ⟨hm, hv⟩ := h
  refine ⟨?_, ?_, ?_⟩
  · rcases hv with hv | hv <;> simp [toggle, toggleTheme, hv]
  · simp [toggle, persistEffect, hm]
  · simp [toggle, persistEffect, hm]

/-- Witness for C7: an initialized dark session. -/
theorem theme_toggle_double_and_persist_witness :
    (toggle (toggle { theme := "dark", mounted := true } (initialDocEnv none false)).1
        (toggle { theme := "dark", mounted := true } (initialDocEnv none false)).2.1).1.theme =
      ({ theme := "dark", mounted := true } : ThemeState).theme ∧
    (toggle { theme := "dark", mounted := true } (initialDocEnv none false)).2.1.storage =
      some (toggle { theme := "dark", mounted := true } (initialDocEnv none false)).1.theme ∧
    (toggle (toggle { theme := "dark", mounted := true } (initialDocEnv none false)).1
        (toggle { theme := "dark", mounted := true } (initialDocEnv none false)).2.1).2.1.storage =
      some (toggle (toggle { theme := "dark", mounted := true } (initialDocEnv none false)).1
        (toggle { theme := "dark", mounted := true } (initialDocEnv none false)).2.1).1.theme :=
  theme_toggle_double_and_persist { theme := "dark", mounted := true }
    (initialDocEnv none false) ⟨rfl, Or.inr rfl⟩

/-- Claim C8: the document root rendered by the layout carries neither
marker class before initialization (and the pre-mount persist pass leaves it
untouched); at every point after initialization completes — after any
number of toggles — the root carries exactly one marker class, equal to the
current mode, which is one of the two declared values. -/
theorem theme_root_marker (storage : Option String) (pd : Bool) (n : Nat)
    (hwf : wfStorage storage) :
    markers (initialDocEnv storage pd).rootClasses = [] ∧
    persistEffect initialThemeState (initialDocEnv storage pd) =
      (initialDocEnv storage pd, []) ∧
    (Initialized
        (runToggles ((initTheme (initialDocEnv storage pd)).1,
          (initTheme (initialDocEnv storage pd)).2.1) n).1 ∧
      markers
          (runToggles ((initTheme (initialDocEnv storage pd)).1,
            (initTheme (initialDocEnv storage pd)).2.1) n).2.rootClasses =
        [(runToggles ((initTheme (initialDocEnv storage pd)).1,
            (initTheme (initialDocEnv storage pd)).2.1) n).1.theme]) := by
  have hinit : Initialized (initTheme (initialDocEnv storage pd)).1 :=
    initTheme_initialized (initialDocEnv storage pd) hwf
  have hmk : markerPred (initTheme (initialDocEnv storage pd)).1.theme = true := by
    rcases hinit.2 with hv | hv <;> simp [markerPred, hv]
  refine ⟨rfl, rfl, runToggles_inv n _ ⟨hinit, ?_⟩⟩
  simpa [initTheme, persistEffect, mountEffect, initialThemeState, initialDocEnv]
    using markers_persist (initialDocEnv storage pd).rootClasses hmk

/-- Witness for C8: a session starting from a persisted `"dark"` value and
two toggles. -/
theorem theme_root_marker_witness :
    markers (initialDocEnv (some "dark") false).rootClasses = [] ∧
    persistEffect initialThemeState (initialDocEnv (some "dark") false) =
      (initialDocEnv (some "dark") false, []) ∧
    (Initialized
        (runToggles ((initTheme (initialDocEnv (some "dark") false)).1,
          (initTheme (initialDocEnv (some "dark") false)).2.1) 2).1 ∧
      markers
          (runToggles ((initTheme (initialDocEnv (some "dark") false)).1,
            (initTheme (initialDocEnv (some "dark") false)).2.1) 2).2.rootClasses =
        [(runToggles ((initTheme (initialDocEnv (some "dark") false)).1,
            (initTheme (initialDocEnv (some "dark") false)).2.1) 2).1.theme]) :=
  theme_root_marker (some "dark") false 2 (Or.inr (Or.inr rfl))

/-- Claim C9 evaluated at the failing input: with the persisted slot holding
`"purple"`, initialization adopts the string verbatim through the unchecked
cast, so the mode is neither `"light"` nor `"dark"` — the code violates the
invariant its own `Theme` type declares. -/
theorem theme_mode_escapes_declared_enum :
    (initTheme (initialDocEnv (some "purple") false)).1.theme = "purple" ∧
    ¬((initTheme (initialDocEnv (some "purple") false)).1.theme = "light" ∨
      (initTheme (initialDocEnv (some "purple") false)).1.theme = "dark") := by
  exact ⟨rfl, by decide⟩

/-- Claim C10: `handleChange` replaces only the named field, leaving every
other field and the status unchanged; in particular the status keeps
whatever value (`success`, `error`, ...) it had before the edit. -/
theorem contact_update_field_frame (s : ContactState) (f : FieldName) (v : String)
    (g : FieldName) (h : g ≠ f) :
    (handleChange s f v).status = s.status ∧
    fieldGet (handleChange s f v).formData f = v ∧
    fieldGet (handleChange s f v).formData g = fieldGet s.formData g := by
  cases f <;> cases g <;> simp_all [handleChange, updateField, fieldGet]

/-- Witness for C10: editing the name field in a post-success state keeps
the status at `success` and the other fields intact. -/
theorem contact_update_field_frame_witness :
    (handleChange { formData := emptyFormData, status := Status.success }
        FieldName.name "Ada").status =
      ({ formData := emptyFormData, status := Status.success } : ContactState).status ∧
    fieldGet (handleChange { formData := emptyFormData, status := Status.success }
        FieldName.name "Ada").formData FieldName.name = "Ada" ∧
    fieldGet (handleChange { formData := emptyFormData, status := Status.success }
        FieldName.name "Ada").formData FieldName.email =
      fieldGet ({ formData := emptyFormData, status := Status.success } :
        ContactState).formData FieldName.email :=
  contact_update_field_frame { formData := emptyFormData, status := Status.success }
    FieldName.name "Ada" FieldName.email (by decide)
